import Mathlib

/-!
Verification of the download-orchestration core of the Telegram video
downloader bot (`src/bot.py`).  Each Python operation relevant to the
frozen claims is shallowly embedded as a Lean definition: the SQLite
`rate_limits` row of a user becomes an `Option RateEntry`, the in-memory
`user_states` dict becomes a function `Nat → Option UserState`, async
calls that may fail are passed in as `Except`-valued oracles, and wall
clock readings (`time.time()`) become explicit `Nat` parameters.
-/

namespace Bot

/-- One row of the `rate_limits` table for a fixed user
(`user_id` is the primary key, so a user has at most one row):
`hour_start` and `requests_count` (bot.py lines 97-101). -/
structure RateEntry where
  hourStart : Nat
  requestsCount : Nat
deriving DecidableEq, Repr

/-- `DatabaseManager.check_rate_limit` (bot.py lines 116-154) for one user,
as a function of the observed hour `int(time.time() // 3600)`, the limit,
and the user's current `rate_limits` row (`none` = no row).  Returns the
admission boolean together with the row stored after the call:
* no row: insert `(currentHour, 1)`, allow;
* row from a different hour: reset to `(currentHour, 1)`, allow;
* same hour with `requests_count >= limit`: deny, row untouched;
* otherwise: increment `requests_count`, allow. -/
def check_rate_limit (currentHour limit : Nat) : Option RateEntry → Bool × RateEntry
  | none => (true, ⟨currentHour, 1⟩)
  | some e =>
    if e.hourStart ≠ currentHour then (true, ⟨currentHour, 1⟩)
    else if limit ≤ e.requestsCount then (false, e)
    else (true, ⟨e.hourStart, e.requestsCount + 1⟩)

/-- A sequence of `check_rate_limit` calls for one user, one call per
observed hour in the list, each call seeing the row stored by the
previous one.  Returns the list of admission results and the final row. -/
def runChecks (limit : Nat) : List Nat → Option RateEntry → List Bool × Option RateEntry
  | [], st => ([], st)
  | h :: hs, st =>
    let r := check_rate_limit h limit st
    let rest := runChecks limit hs (some r.2)
    (r.1 :: rest.1, rest.2)

/-- Same-hour runs starting from an existing row `⟨h, c⟩` with `c ≤ limit`:
the next `limit - c` calls are admitted, the rest denied, and the stored
count saturates at `limit`. -/
theorem runChecks_same_hour (L h : Nat) : ∀ (n c : Nat), c ≤ L →
    runChecks L (List.replicate n h) (some ⟨h, c⟩)
      = (List.replicate (min n (L - c)) true ++ List.replicate (n - (L - c)) false,
         some ⟨h, min (c + n) L⟩) := by
  intro n
  induction n with
  | zero =>
    intro c hc
    simp [runChecks, Nat.min_eq_left hc]
  | succ k ih =>
    intro c hc
    rw [List.replicate_succ]
    by_cases hcL : L ≤ c
    · have hceq : c = L := Nat.le_antisymm hc hcL
      have hLc : L - c = 0 := by omega
      simp only [runChecks, check_rate_limit, ne_eq, not_true_eq_false, if_false,
        if_pos hcL, ite_self]
      rw [ih c hc]
      have h1 : min (k + 1) (L - c) = 0 := by omega
      have h2 : (k + 1) - (L - c) = k + 1 := by omega
      have h3 : min k (L - c) = 0 := by omega
      have h4 : k - (L - c) = k := by omega
      have h5 : min (c + (k + 1)) L = L := by omega
      have h6 : min (c + k) L = L := by omega
      simp [h1, h2, h3, h4, h5, h6, List.replicate_succ, hceq]
    · have hlt : c < L := Nat.lt_of_not_le hcL
      simp only [runChecks, check_rate_limit, ne_eq, not_true_eq_false, if_false,
        if_neg hcL]
      rw [ih (c + 1) hlt]
      have h1 : min (k + 1) (L - c) = min k (L - (c + 1)) + 1 := by omega
      have h2 : (k + 1) - (L - c) = k - (L - (c + 1)) := by omega
      have h3 : min (c + 1 + k) L = min (c + (k + 1)) L := by omega
      simp [h1, h2, h3, List.replicate_succ]

/-- **C1**: for every user and every limit `L ≥ 1`, with all calls observed
in the same hour window `h`, the first `L` calls to `check_rate_limit` are
admitted and every further call in that window is denied (results are
`min n L` times `true` followed by `n - L` times `false`); the first call
observed in a later hour `h2 > h` is admitted again with the stored row
reset to count `1`, discarding the prior window's count. -/
theorem c1_rate_limit_window (h h2 L n : Nat) (hL : 1 ≤ L) (hlater : h < h2) :
    (runChecks L (List.replicate n h) none).1
      = List.replicate (min n L) true ++ List.replicate (n - L) false
    ∧ check_rate_limit h2 L (runChecks L (List.replicate n h) none).2
      = (true, ⟨h2, 1⟩) := by
  have hne : h ≠ h2 := Nat.ne_of_lt hlater
  cases n with
  | zero =>
    constructor
    · simp [runChecks]
    · simp [runChecks, check_rate_limit]
  | succ k =>
    rw [List.replicate_succ]
    have hfirst : check_rate_limit h L none = (true, ⟨h, 1⟩) := rfl
    simp only [runChecks, hfirst]
    rw [runChecks_same_hour L h k 1 hL]
    constructor
    · have h1 : min (k + 1) L = min k (L - 1) + 1 := by omega
      have h2 : (k + 1) - L = k - (L - 1) := by omega
      simp [h1, h2, List.replicate_succ]
    · simp [check_rate_limit, hne]

/-- Concrete instance of `c1_rate_limit_window`: limit 2, three calls in
hour 5, then one call in hour 6. -/
theorem c1_rate_limit_window_witness :
    (runChecks 2 (List.replicate 3 5) none).1
      = List.replicate (min 3 2) true ++ List.replicate (3 - 2) false
    ∧ check_rate_limit 6 2 (runChecks 2 (List.replicate 3 5) none).2
      = (true, ⟨6, 1⟩) :=
  c1_rate_limit_window 5 6 2 3 (by decide) (by decide)

/-- **C6**: one admission check never moves the stored window start
backwards: provided the observed hour is not earlier than the stored
`hour_start` (wall-clock time is non-decreasing across the calls that
wrote and now read the row), the row stored after the check has
`hour_start` between the old value and the observed hour.  At most one
window per user is structural: the `rate_limits` table keys rows by
`user_id` (primary key), embedded here as a single `Option RateEntry`. -/
theorem c6_window_monotone (cur L : Nat) (e : RateEntry)
    (hclock : e.hourStart ≤ cur) :
    e.hourStart ≤ (check_rate_limit cur L (some e)).2.hourStart
    ∧ (check_rate_limit cur L (some e)).2.hourStart ≤ cur := by
  unfold check_rate_limit
  by_cases hh : e.hourStart ≠ cur
  · simp [hh, hclock]
  · by_cases hfull : L ≤ e.requestsCount
    · simp [hh, hfull, hclock]
    · simp [hh, hfull, hclock]

/-- Concrete instance of `c6_window_monotone`: row from hour 4 checked at
hour 5. -/
theorem c6_window_monotone_witness :
    (RateEntry.mk 4 2).hourStart ≤ (check_rate_limit 5 3 (some ⟨4, 2⟩)).2.hourStart
    ∧ (check_rate_limit 5 3 (some ⟨4, 2⟩)).2.hourStart ≤ 5 :=
  c6_window_monotone 5 3 ⟨4, 2⟩ (by decide)

/-- **C7**: a denied admission check leaves the stored row completely
unchanged: when the row is in the current window and its count has
reached the limit, `check_rate_limit` returns `false` together with the
very same row (no `UPDATE` is executed on the denial path). -/
theorem c7_denial_frame (cur L : Nat) (e : RateEntry)
    (hwin : e.hourStart = cur) (hfull : L ≤ e.requestsCount) :
    check_rate_limit cur L (some e) = (false, e) := by
  simp [check_rate_limit, hwin, hfull]

/-- Concrete instance of `c7_denial_frame`: row `(5, 3)` at hour 5 with
limit 3. -/
theorem c7_denial_frame_witness :
    check_rate_limit 5 3 (some ⟨5, 3⟩) = (false, ⟨5, 3⟩) :=
  c7_denial_frame 5 3 ⟨5, 3⟩ rfl (by decide)

/-- A playlist entry as consumed by `download_single` (bot.py lines
294-303): the `'url'` and `'webpage_url'` keys, each possibly absent. -/
structure PEntry where
  url : Option String
  webpage_url : Option String
deriving DecidableEq, Repr

/-- The slice of a yt-dlp info dict the orchestration code inspects:
the `'entries'` key (absent for plain videos; a list of possibly-`None`
entries for playlists). -/
structure Info where
  entries : Option (List (Option PEntry))
deriving DecidableEq, Repr

/-- The empty dict `{}` returned by the failure branches of the
downloader methods. -/
def emptyInfo : Info := ⟨none⟩

/-- The playlist test of `handle_url` (bot.py line 537):
`'entries' in info and len(info['entries']) > 1`. -/
def isMultiPlaylist (info : Info) : Bool :=
  match info.entries with
  | some es => 1 < es.length
  | none => false

/-- The externally observable actions `handle_url` can perform, in
program order: the admission check, the rate-limited rejection reply,
the platform-support check, the unsupported-platform reply, the loading
message, the `get_video_info` call, the analysis-error reply, and the
dispatch to `handle_playlist` or `show_video_options`. -/
inductive Step where
  | checkRate
  | replyRateLimited
  | checkPlatform
  | replyUnsupported
  | replyLoading
  | getVideoInfo
  | replyAnalysisError
  | dispatchPlaylist
  | showVideoOptions
deriving DecidableEq, Repr

/-- `TelegramBot.handle_url` (bot.py lines 492-550) for one user, as a
function of the observed hour, the configured limit, the user's current
`rate_limits` row, whether `is_supported_platform(url)` holds, and the
result of `get_video_info` (`none` models its internal-error return).
Returns the user's `rate_limits` row after the call together with the
ordered trace of actions:
* admission denied: reply rate-limited and stop;
* platform unsupported: reply unsupported and stop;
* info resolution fails: loading message, info call, error reply;
* multi-entry playlist: dispatch to `handle_playlist`;
* otherwise: dispatch to `show_video_options`. -/
def handle_url (cur L : Nat) (st : Option RateEntry) (supported : Bool)
    (infoRes : Option Info) : Option RateEntry × List Step :=
  let r := check_rate_limit cur L st
  if r.1 = false then
    (some r.2, [Step.checkRate, Step.replyRateLimited])
  else if supported = false then
    (some r.2, [Step.checkRate, Step.checkPlatform, Step.replyUnsupported])
  else
    match infoRes with
    | none =>
      (some r.2, [Step.checkRate, Step.checkPlatform, Step.replyLoading,
        Step.getVideoInfo, Step.replyAnalysisError])
    | some info =>
      if isMultiPlaylist info then
        (some r.2, [Step.checkRate, Step.checkPlatform, Step.replyLoading,
          Step.getVideoInfo, Step.dispatchPlaylist])
      else
        (some r.2, [Step.checkRate, Step.checkPlatform, Step.replyLoading,
          Step.getVideoInfo, Step.showVideoOptions])

/-- **C5**: when the admission check denies a submission, `handle_url`
stops right after the rate-limited rejection reply: its trace is exactly
the admission check followed by that reply, so no `get_video_info` call
and no dispatch (playlist or single-video) occurs for the submission. -/
theorem c5_rate_limited_stops (cur L : Nat) (st : Option RateEntry)
    (supported : Bool) (infoRes : Option Info)
    (hdeny : (check_rate_limit cur L st).1 = false) :
    (handle_url cur L st supported infoRes).2 = [Step.checkRate, Step.replyRateLimited]
    ∧ Step.getVideoInfo ∉ (handle_url cur L st supported infoRes).2
    ∧ Step.dispatchPlaylist ∉ (handle_url cur L st supported infoRes).2
    ∧ Step.showVideoOptions ∉ (handle_url cur L st supported infoRes).2 := by
  simp only [handle_url, hdeny]
  simp

/-- Concrete instance of `c5_rate_limited_stops`: user at the limit
(row `(5, 3)`, limit 3, hour 5). -/
theorem c5_rate_limited_stops_witness :
    (handle_url 5 3 (some ⟨5, 3⟩) true (some ⟨none⟩)).2
      = [Step.checkRate, Step.replyRateLimited]
    ∧ Step.getVideoInfo ∉ (handle_url 5 3 (some ⟨5, 3⟩) true (some ⟨none⟩)).2
    ∧ Step.dispatchPlaylist ∉ (handle_url 5 3 (some ⟨5, 3⟩) true (some ⟨none⟩)).2
    ∧ Step.showVideoOptions ∉ (handle_url 5 3 (some ⟨5, 3⟩) true (some ⟨none⟩)).2 :=
  c5_rate_limited_stops 5 3 (some ⟨5, 3⟩) true (some ⟨none⟩) (by decide)

/-- **C9**: the admission check is the first action of `handle_url` and,
for a user admitted within the current window (count `c < L`), the stored
row after the call is `(cur, c + 1)` on *every* path — in particular on
the unsupported-platform rejection and on the failed-analysis path, whose
traces are also pinned down (the former performs no info resolution).
No rejection path refunds the consumed admission. -/
theorem c9_no_refund (cur L c : Nat) (supported : Bool) (infoRes : Option Info)
    (hroom : c < L) :
    (handle_url cur L (some ⟨cur, c⟩) supported infoRes).2.head? = some Step.checkRate
    ∧ (handle_url cur L (some ⟨cur, c⟩) supported infoRes).1 = some ⟨cur, c + 1⟩
    ∧ (supported = false →
        (handle_url cur L (some ⟨cur, c⟩) supported infoRes).2
          = [Step.checkRate, Step.checkPlatform, Step.replyUnsupported])
    ∧ (supported = true → infoRes = none →
        (handle_url cur L (some ⟨cur, c⟩) supported infoRes).2
          = [Step.checkRate, Step.checkPlatform, Step.replyLoading,
             Step.getVideoInfo, Step.replyAnalysisError]) := by
  have hadmit : check_rate_limit cur L (some ⟨cur, c⟩) = (true, ⟨cur, c + 1⟩) := by
    simp [check_rate_limit, Nat.not_le.mpr hroom]
  refine ⟨?_, ?_, ?_, ?_⟩ <;>
    · simp only [handle_url, hadmit]
      cases supported <;> cases infoRes <;> simp_all [isMultiPlaylist]
      <;> split <;> simp

/-- Concrete instance of `c9_no_refund`: admitted user (count 0, limit 3)
submitting an unsupported URL — the admission stays consumed. -/
theorem c9_no_refund_witness :
    (handle_url 5 3 (some ⟨5, 0⟩) false none).2.head? = some Step.checkRate
    ∧ (handle_url 5 3 (some ⟨5, 0⟩) false none).1 = some ⟨5, 0 + 1⟩
    ∧ (false = false →
        (handle_url 5 3 (some ⟨5, 0⟩) false none).2
          = [Step.checkRate, Step.checkPlatform, Step.replyUnsupported])
    ∧ (false = true → (none : Option Info) = none →
        (handle_url 5 3 (some ⟨5, 0⟩) false none).2
          = [Step.checkRate, Step.checkPlatform, Step.replyLoading,
             Step.getVideoInfo, Step.replyAnalysisError]) :=
  c9_no_refund 5 3 0 false none (by decide)

/-- One entry of the format list built by `get_available_formats`
(bot.py lines 228-235), as stored in `user_states`; the numeric size is
kept as reported, in bytes. -/
structure Fmt where
  format_id : String
  ext : String
  quality : String
  note : String
  filesize : Nat
deriving DecidableEq, Repr

/-- A value of the `TelegramBot.user_states` dict: either the dict
stored by `show_video_options` (bot.py lines 585-589: `url`, `info`,
`formats`) or the one stored by `handle_playlist` (bot.py lines 634-638:
`url`, `info`, `type: playlist`). -/
inductive UserState where
  | videoSession (url : String) (info : Info) (formats : List Fmt)
  | playlistSession (url : String) (info : Info)
deriving DecidableEq, Repr

/-- The `user_states` dict itself: user id to stored session, `none`
meaning no entry. -/
def StateTable := Nat → Option UserState

/-- The session write of `show_video_options` (bot.py lines 585-589):
`self.user_states[user_id] = {url, info, formats}` — an unconditional
dict assignment. -/
def show_video_options_store (states : StateTable) (u : Nat) (url : String)
    (info : Info) (formats : List Fmt) : StateTable :=
  fun v => if v = u then some (UserState.videoSession url info formats) else states v

/-- The session write of `handle_playlist` (bot.py lines 634-638):
`self.user_states[user_id] = {url, info, type: playlist}` — likewise an
unconditional dict assignment. -/
def handle_playlist_store (states : StateTable) (u : Nat) (url : String)
    (info : Info) : StateTable :=
  fun v => if v = u then some (UserState.playlistSession url info) else states v

/-- **C3 counterexample**: user 0 already has a live session for
`"https://youtu.be/a"`; submitting `"https://youtu.be/b"` without an
intervening close does *not* leave the stored state equal to the state
after the first submission — the second write overwrites the first, so
the claim's single-flight property is false on this concrete input. -/
theorem c3_counterexample :
    (show_video_options_store
        (show_video_options_store (fun _ => none) 0 "https://youtu.be/a" ⟨none⟩ [])
        0 "https://youtu.be/b" ⟨none⟩ []) 0
      ≠ (show_video_options_store (fun _ => none) 0 "https://youtu.be/a" ⟨none⟩ []) 0 := by
  simp [show_video_options_store]

/-- **C3 amended**: beginning a second flow for a new URL without an
intervening close does not return the existing session unchanged;
both session-storing handlers unconditionally overwrite the user's
stored entry with the new submission's data (last-writer-wins, no
single-flight), leaving every other user's entry untouched. -/
theorem c3_session_overwrite (states : StateTable) (u v : Nat) (url : String)
    (info : Info) (formats : List Fmt) :
    show_video_options_store states u url info formats v
      = (if v = u then some (UserState.videoSession url info formats) else states v)
    ∧ handle_playlist_store states u url info v
      = (if v = u then some (UserState.playlistSession url info) else states v) :=
  ⟨rfl, rfl⟩

/-- The session cleanup at the end of `download_single_video` (bot.py
lines 1017-1019): `if user_id in self.user_states: del
self.user_states[user_id]` — remove the user's entry if present. -/
def cleanup_user_state (u : Nat) (states : StateTable) : StateTable :=
  fun v => if v = u then none else states v

/-- **C8**: closing a session is idempotent: running the cleanup twice
leaves the table exactly as running it once, and cleaning up a user with
no stored session is a no-op (the guarded delete never errors — the
operation is total on every table). -/
theorem c8_close_idempotent (states : StateTable) (u : Nat) :
    cleanup_user_state u (cleanup_user_state u states) = cleanup_user_state u states
    ∧ (states u = none → cleanup_user_state u states = states) := by
  constructor
  · funext v
    by_cases hv : v = u <;> simp [cleanup_user_state, hv]
  · intro habsent
    funext v
    by_cases hv : v = u <;> simp [cleanup_user_state, hv, habsent]

/-- Concrete instance of `c8_close_idempotent`: the empty table and
user 0. -/
theorem c8_close_idempotent_witness :
    cleanup_user_state 0 (cleanup_user_state 0 (fun _ => none))
        = cleanup_user_state 0 (fun _ => none)
    ∧ cleanup_user_state 0 (fun _ => (none : Option UserState)) = fun _ => none :=
  ⟨(c8_close_idempotent (fun _ => none) 0).1,
   (c8_close_idempotent (fun _ => none) 0).2 rfl⟩

/-- Python truthiness of an optional string value (`None` and `''` are
falsy), as used by `entry.get('url') or entry.get('webpage_url')` and
`if not video_url`. -/
def pyTruthy : Option String → Bool
  | none => false
  | some s => s ≠ ""

/-- Python's short-circuit `or` on two optional strings. -/
def pyOr (a b : Option String) : Option String :=
  if pyTruthy a then a else b

/-- The result triple of `download_video`: success flag, filename (on
success; possibly `None` if no `finished` hook fired) or error message
(on failure), and the info dict. -/
def DLRes : Type := Bool × Option String × Info
deriving instance DecidableEq, Repr for DLRes

/-- `EnhancedDownloader.download_video` (bot.py lines 241-277).  The
executor-run yt-dlp call is the oracle `fetch` (`Except.error e` models
the exception caught by the `except` branch, carrying `str(e)`);
`hookFilename` is the filename the progress hook captured on a
`finished` event.  Every failure is caught and returned as
`(False, str(e), {})`; nothing is raised to the caller. -/
def download_video (fetch : Except String Info) (hookFilename : Option String) : DLRes :=
  match fetch with
  | .error e => (false, some e, emptyInfo)
  | .ok info => (true, hookFilename, info)

/-- The inner coroutine `download_single` of `download_playlist`
(bot.py lines 294-303), with the awaited `download_video` call abstracted
as the oracle `dlv` (an `Except.error` models an exception propagating
out of the awaited task, e.g. a crash or cancellation, which
`asyncio.gather(..., return_exceptions=True)` will capture):
* a `None` entry yields `(False, "Empty entry", {})`;
* an entry with no truthy `url`/`webpage_url` yields
  `(False, "No URL found", {})`;
* otherwise the entry's resolved URL is downloaded. -/
def download_single (dlv : String → Except String DLRes) : Option PEntry → Except String DLRes
  | none => .ok (false, some "Empty entry", emptyInfo)
  | some e =>
    match pyOr e.url e.webpage_url with
    | none => .ok (false, some "No URL found", emptyInfo)
    | some s =>
      if s = "" then .ok (false, some "No URL found", emptyInfo)
      else dlv s

/-- The result post-processing loop of `download_playlist` (bot.py lines
310-315): an exception captured by `gather` becomes `(False, str(e), {})`,
a normal result is kept as is. -/
def processResult : Except String DLRes → DLRes
  | .error e => (false, some e, emptyInfo)
  | .ok v => v

/-- `EnhancedDownloader.download_playlist` (bot.py lines 279-321) with
`get_video_info`'s result passed in as `infoRes` (`none` models its
internal-error return) and the per-entry download oracle `dlv`:
* missing info or missing `'entries'` key: `[(False, "Invalid playlist", {})]`;
* otherwise one task per entry of `entries[:max_videos]`, gathered with
  `return_exceptions=True` and post-processed by `processResult`. -/
def download_playlist (infoRes : Option Info) (maxVideos : Nat)
    (dlv : String → Except String DLRes) : List DLRes :=
  match infoRes with
  | none => [(false, some "Invalid playlist", emptyInfo)]
  | some info =>
    match info.entries with
    | none => [(false, some "Invalid playlist", emptyInfo)]
    | some es => ((es.take maxVideos).map (download_single dlv)).map processResult

/-- One value of the `requested_subtitles` dict: the `'filepath'` key,
possibly absent. -/
structure SubEntry where
  filepath : Option String
deriving DecidableEq, Repr

/-- The slice of the info dict `extract_subtitles` inspects: the
`'requested_subtitles'` key (possibly absent), a mapping from language to
a possibly-`None` subtitle record. -/
structure SubInfo where
  requested_subtitles : Option (List (String × Option SubEntry))
deriving DecidableEq, Repr

/-- `EnhancedDownloader.extract_subtitles` (bot.py lines 323-358) with
the executor-run yt-dlp call abstracted as `fetch` (`Except.error`
models the exception caught by the `except` branch).  Collects
`lang ↦ filepath` for every language whose record is truthy and has a
`'filepath'` key; every failure is caught and yields the empty dict. -/
def extract_subtitles (fetch : Except String SubInfo) : List (String × String) :=
  match fetch with
  | .error _ => []
  | .ok info =>
    match info.requested_subtitles with
    | none => []
    | some subs =>
      subs.filterMap (fun p =>
        match p.2 with
        | none => none
        | some se =>
          match se.filepath with
          | none => none
          | some fp => some (p.1, fp))

/-- **C2**: `download_playlist` on a playlist with entry list `es` returns
exactly one terminal outcome per dispatched entry (the first
`maxVideos` entries): the result has the same length as the dispatched
list, and the outcome at every index `i` is exactly the processed result
of that index's own entry — so no entry is dropped, none is recorded
twice, and an exception (`Except.error`) inside one entry's download
becomes a failure tuple at that entry's position only, never affecting
the formula at any sibling index or aborting the batch. -/
theorem c2_one_outcome_per_entry (es : List (Option PEntry)) (maxVideos : Nat)
    (dlv : String → Except String DLRes) (i : Nat) :
    (download_playlist (some ⟨some es⟩) maxVideos dlv).length
      = (es.take maxVideos).length
    ∧ (download_playlist (some ⟨some es⟩) maxVideos dlv)[i]?
      = ((es.take maxVideos)[i]?).map
          (fun entry => processResult (download_single dlv entry)) := by
  constructor
  · simp [download_playlist]
  · simp only [download_playlist, List.map_map, List.getElem?_map]
    cases (es.take maxVideos)[i]? <;> rfl

/-- **C10**: the downloader operations never propagate an exception:
for every internal failure `download_video` returns `(False, str(e), {})`,
`download_playlist` returns a singleton failure list when info resolution
fails or the info has no `'entries'` key (and otherwise the
exception-absorbing list of `c2_one_outcome_per_entry`), and
`extract_subtitles` returns the empty dict. -/
theorem c10_no_exception_escape (msg e2 : String) (fn : Option String)
    (maxVideos : Nat) (dlv : String → Except String DLRes) :
    download_video (.error msg) fn = (false, some msg, emptyInfo)
    ∧ download_playlist none maxVideos dlv
        = [(false, some "Invalid playlist", emptyInfo)]
    ∧ download_playlist (some ⟨none⟩) maxVideos dlv
        = [(false, some "Invalid playlist", emptyInfo)]
    ∧ extract_subtitles (.error e2) = [] :=
  ⟨rfl, rfl, rfl, rfl⟩

/-- The `status` field of a yt-dlp progress-hook dict: `'downloading'`,
`'finished'`, or `'error'` (the latter two are the terminal events). -/
inductive DStatus where
  | downloading
  | finished
  | error
deriving DecidableEq, Repr

/-- One invocation of the `progress_callback` closure inside
`TelegramBot.download_single_video` (bot.py lines 933-957), as a function
of the closure's `last_update` state, the current `time.time()` reading
and the event's status.  Returns the new `last_update` and whether the
event was forwarded (the `progress_msg.edit_text` task was created):
* within 2 seconds of the last gate pass: return early, nothing changes;
* otherwise `last_update` is set to now, and the event is forwarded only
  when its status is `'downloading'` — terminal events fall through the
  `if d['status'] == 'downloading'` test and are not forwarded. -/
def progress_step (lastUpdate now : Nat) (st : DStatus) : Nat × Bool :=
  if now - lastUpdate < 2 then (lastUpdate, false)
  else (now, decide (st = DStatus.downloading))

/-- A run of `progress_callback` over a list of timestamped events,
threading `last_update` (initially `0` when the closure is created).
Returns the final `last_update` and the forwarded events in order. -/
def progress_run (lastUpdate : Nat) : List (Nat × DStatus) → Nat × List (Nat × DStatus)
  | [] => (lastUpdate, [])
  | (t, s) :: rest =>
    let p := progress_step lastUpdate t s
    let r := progress_run p.1 rest
    (r.1, (if p.2 then [(t, s)] else []) ++ r.2)

/-- Gate invariant of the throttle: every forwarded event lies at least
2 seconds past the `last_update` the run started from, carries status
`'downloading'`, and consecutive forwarded events are at least 2 seconds
apart. -/
theorem progress_run_gate (evs : List (Nat × DStatus)) : ∀ lu : Nat,
    (∀ e ∈ (progress_run lu evs).2, lu + 2 ≤ e.1 ∧ e.2 = DStatus.downloading)
    ∧ List.Chain' (fun a b => a.1 + 2 ≤ b.1) (progress_run lu evs).2 := by
  induction evs with
  | nil => intro lu; simp [progress_run]
  | cons ev rest ih =>
    intro lu
    obtain ⟨t, s⟩ := ev
    by_cases hgate : t - lu < 2
    · simp only [progress_run, progress_step, if_pos hgate]
      simpa using ih lu
    · have ht : lu + 2 ≤ t := by omega
      by_cases hs : s = DStatus.downloading
      · subst hs
        simp only [progress_run, progress_step, if_neg hgate, decide_eq_true_eq,
          if_pos rfl, List.singleton_append]
        constructor
        · intro e he
          rcases List.mem_cons.mp he with he | he
          · subst he; exact ⟨ht, rfl⟩
          · have := ((ih t).1 e he).1
            exact ⟨by omega, ((ih t).1 e he).2⟩
        · refine List.Chain'.cons' (ih t).2 ?_
          intro y hy
          have hmem : y ∈ (progress_run t rest).2 := List.mem_of_mem_head? hy
          have := ((ih t).1 y hmem).1
          omega
      · have hdec : decide (s = DStatus.downloading) = false := by
          simpa using hs
        simp only [progress_run, progress_step, if_neg hgate, hdec,
          Bool.false_eq_true, if_false, List.nil_append]
        constructor
        · intro e he
          have := (ih t).1 e he
          exact ⟨by omega, this.2⟩
        · exact (ih t).2

/-- **C4 counterexample**: a burst of two events for one task — a
`downloading` event at second 100 and a terminal `finished` event one
second later — forwards only the first event; the terminal event is
discarded by the 2-second gate (and would not be forwarded even past the
gate, since only `downloading` events are forwarded), so the claim that
the first event *and* the terminal event are both forwarded is false on
this concrete input. -/
theorem c4_counterexample :
    (progress_run 0 [(100, DStatus.downloading), (101, DStatus.finished)]).2
      = [(100, DStatus.downloading)]
    ∧ (101, DStatus.finished)
        ∉ (progress_run 0 [(100, DStatus.downloading), (101, DStatus.finished)]).2 := by
  decide

/-- **C4 amended**: the progress throttle forwards at most one event per
2-second interval (consecutive forwarded events are ≥ 2 seconds apart);
only `downloading` events are ever forwarded — terminal events
(`finished`/`failed`) do not bypass the interval gate and are never
forwarded; the first event of a run is forwarded when it is a
`downloading` event (the gate is initially open because `last_update`
starts at `0` and epoch timestamps are ≥ 2), so a rapid burst ending in
a terminal event forwards only its first event. -/
theorem c4_throttle_amended (lu t : Nat) (rest evs : List (Nat × DStatus))
    (ht : 2 ≤ t) :
    (∀ e ∈ (progress_run lu evs).2, e.2 = DStatus.downloading)
    ∧ List.Chain' (fun a b => a.1 + 2 ≤ b.1) (progress_run lu evs).2
    ∧ ((progress_run 0 ((t, DStatus.downloading) :: rest)).2).head?
        = some (t, DStatus.downloading) := by
  refine ⟨fun e he => ((progress_run_gate evs lu).1 e he).2,
    (progress_run_gate evs lu).2, ?_⟩
  have hgate : ¬ (t - 0 < 2) := by omega
  have hgate2 : ¬ (t < 2) := by omega
  simp [progress_run, progress_step, hgate, hgate2]

/-- Concrete instance of `c4_throttle_amended`: the two-event burst of
`c4_counterexample`. -/
theorem c4_throttle_amended_witness :
    (∀ e ∈ (progress_run 0 [(100, DStatus.downloading), (101, DStatus.finished)]).2,
        e.2 = DStatus.downloading)
    ∧ List.Chain' (fun a b => a.1 + 2 ≤ b.1)
        (progress_run 0 [(100, DStatus.downloading), (101, DStatus.finished)]).2
    ∧ ((progress_run 0 ((100, DStatus.downloading) :: [(101, DStatus.finished)])).2).head?
        = some (100, DStatus.downloading) :=
  c4_throttle_amended 0 100 [(101, DStatus.finished)]
    [(100, DStatus.downloading), (101, DStatus.finished)] (by decide)

end Bot
